import Mathlib

/-
Verification development for the binhtran.com repository.

The repository holds a presentational Gatsby component
(src/components/post-preview.js) and one MDX content file
(content/blog/2020-first-post/2020-first-post.mdx) whose body embeds a
tutorial reducer (moviesReducer) together with the addMovie and
markWatchedMovie dispatch wrappers.  This file gives a shallow embedding of
those artifacts and proves the stated properties about them.
-/

/-! ## View trees

React elements produced by the component are modelled as a small tree of
elements (tag, attributes, children) and text nodes. -/

/-- A virtual DOM node: an element with a tag, string attributes and
children, or a text node. -/
inductive VNode where
  | element (tag : String) (attrs : List (String × String)) (children : List VNode)
  | text (s : String)

/-! ## The PostPreview component (src/components/post-preview.js)

The component is the arrow function
`({ post }) => ( <article css=...> <Link to={post.slug} css=...>
<Image alt={post.title} fluid={post.image.sharp.fluid} /> </Link>
<h3> <Link to={post.slug}>{post.title}</Link> </h3>
<p>{post.excerpt}</p> </article> )`. -/

/-- The emotion css template attached to the article element
(post-preview.js lines 8-15), flattened to one line; `\x7b`/`\x7d` encode
the braces of the `:first-of-type` block. -/
def articleCss : String :=
  "border-bottom: 1px solid #ddd; margin-top: 0.75rem; padding-bottom: 1rem; :first-of-type \x7b margin-top: 1rem; \x7d"

/-- The emotion css template attached to the thumbnail Link
(post-preview.js lines 19-22). -/
def thumbnailLinkCss : String :=
  "margin: 1rem 1rem 0 0; width: 100px"

/-- The `sharp` image node: the component reads `post.image.sharp.fluid`;
the fluid payload is kept opaque as a string. -/
structure SharpImage where
  fluid : String
deriving Repr, DecidableEq

/-- The `image` field of a post: a file node carrying a sharp image. -/
structure ImageFile where
  sharp : SharpImage
deriving Repr, DecidableEq

/-- A Post Summary: the data the preview component consumes
(fields `slug`, `title`, `excerpt`, `image`). -/
structure Post where
  slug : String
  title : String
  excerpt : String
  image : ImageFile
deriving Repr, DecidableEq

/-- The PostPreview component (post-preview.js lines 6-32): renders an
article holding a Link-wrapped thumbnail Image, an h3 with a Link-wrapped
title, and a paragraph with the excerpt.  The commented-out ReadLink of
line 30 renders nothing. -/
def PostPreview (post : Post) : VNode :=
  VNode.element "article" [("css", articleCss)]
    [ VNode.element "Link" [("to", post.slug), ("css", thumbnailLinkCss)]
        [ VNode.element "Image" [("alt", post.title), ("fluid", post.image.sharp.fluid)] [] ],
      VNode.element "h3" []
        [ VNode.element "Link" [("to", post.slug)] [ VNode.text post.title ] ],
      VNode.element "p" [] [ VNode.text post.excerpt ] ]

mutual

/-- Collect every element with tag `t` in a view tree, in document order. -/
def collectTag (t : String) : VNode → List VNode
  | VNode.element tag attrs children =>
      (if tag = t then [VNode.element tag attrs children] else []) ++ collectTagList t children
  | VNode.text _ => []

/-- Collect every element with tag `t` in a forest, in document order. -/
def collectTagList (t : String) : List VNode → List VNode
  | [] => []
  | n :: ns => collectTag t n ++ collectTagList t ns

end

/-! ## JavaScript-level model of the component

To state what the component accesses on an arbitrary object (and that it
accesses nothing else and never mutates the object), the post is also
modelled as an untyped JavaScript value: `undefined`, a string, or an
object with named fields.  A property read on `undefined` throws a
TypeError; a read of an absent property yields `undefined`. -/

/-- An untyped JavaScript value. -/
inductive JsVal where
  | undef
  | str (s : String)
  | obj (fields : List (String × JsVal))

/-- Property read `v.k`: throws on `undefined`, yields the first binding of
`k` in an object (or `undefined` when absent), and `undefined` on a
string receiver (the component reads no string properties). -/
def getField : JsVal → String → Except String JsVal
  | JsVal.undef, k => Except.error ("TypeError: cannot read property " ++ k ++ " of undefined")
  | JsVal.str _, _ => Except.ok JsVal.undef
  | JsVal.obj fields, k =>
      match fields.lookup k with
      | some v => Except.ok v
      | none => Except.ok JsVal.undef

/-- A view tree whose attribute values and text are JavaScript values. -/
inductive VNodeJs where
  | element (tag : String) (attrs : List (String × JsVal)) (children : List VNodeJs)
  | text (v : JsVal)

/-- The PostPreview component applied to an untyped post object, performing
the property reads of post-preview.js in their JSX evaluation order:
`post.slug`, `post.title`, `post.image`, `.sharp`, `.fluid`, `post.slug`,
`post.title`, `post.excerpt`; a throw propagates. -/
def PostPreviewJs (post : JsVal) : Except String VNodeJs :=
  match getField post "slug" with
  | Except.error e => Except.error e
  | Except.ok slug =>
  match getField post "title" with
  | Except.error e => Except.error e
  | Except.ok alt =>
  match getField post "image" with
  | Except.error e => Except.error e
  | Except.ok image =>
  match getField image "sharp" with
  | Except.error e => Except.error e
  | Except.ok sharp =>
  match getField sharp "fluid" with
  | Except.error e => Except.error e
  | Except.ok fluid =>
  match getField post "slug" with
  | Except.error e => Except.error e
  | Except.ok slug2 =>
  match getField post "title" with
  | Except.error e => Except.error e
  | Except.ok titleText =>
  match getField post "excerpt" with
  | Except.error e => Except.error e
  | Except.ok excerpt =>
  Except.ok (VNodeJs.element "article" [("css", JsVal.str articleCss)]
    [ VNodeJs.element "Link" [("to", slug), ("css", JsVal.str thumbnailLinkCss)]
        [ VNodeJs.element "Image" [("alt", alt), ("fluid", fluid)] [] ],
      VNodeJs.element "h3" []
        [ VNodeJs.element "Link" [("to", slug2)] [ VNodeJs.text titleText ] ],
      VNodeJs.element "p" [] [ VNodeJs.text excerpt ] ])

/-- The post object provides the contract fields `slug`, `title`,
`excerpt` and `image`, with the image reference well formed
(`image.sharp.fluid` readable). -/
def providesContract (post : JsVal) : Prop :=
  (∃ s, getField post "slug" = Except.ok s) ∧
  (∃ t, getField post "title" = Except.ok t) ∧
  (∃ e, getField post "excerpt" = Except.ok e) ∧
  (∃ img sharp fluid, getField post "image" = Except.ok img ∧
    getField img "sharp" = Except.ok sharp ∧ getField sharp "fluid" = Except.ok fluid)

/-- One property read with the receiver threaded through: a read returns
its result and leaves the receiver as it was. -/
def readField (post : JsVal) (k : String) : Except String JsVal × JsVal :=
  (getField post k, post)

/-- The component with the post object threaded through every read it
performs on the post, so the state of the object after rendering is
explicit in the result. -/
def PostPreviewJsTr (post : JsVal) : Except String VNodeJs × JsVal :=
  match readField post "slug" with
  | (Except.error e, post) => (Except.error e, post)
  | (Except.ok slug, post) =>
  match readField post "title" with
  | (Except.error e, post) => (Except.error e, post)
  | (Except.ok alt, post) =>
  match readField post "image" with
  | (Except.error e, post) => (Except.error e, post)
  | (Except.ok image, post) =>
  match getField image "sharp" with
  | Except.error e => (Except.error e, post)
  | Except.ok sharp =>
  match getField sharp "fluid" with
  | Except.error e => (Except.error e, post)
  | Except.ok fluid =>
  match readField post "slug" with
  | (Except.error e, post) => (Except.error e, post)
  | (Except.ok slug2, post) =>
  match readField post "title" with
  | (Except.error e, post) => (Except.error e, post)
  | (Except.ok titleText, post) =>
  match readField post "excerpt" with
  | (Except.error e, post) => (Except.error e, post)
  | (Except.ok excerpt, post) =>
  (Except.ok (VNodeJs.element "article" [("css", JsVal.str articleCss)]
    [ VNodeJs.element "Link" [("to", slug), ("css", JsVal.str thumbnailLinkCss)]
        [ VNodeJs.element "Image" [("alt", alt), ("fluid", fluid)] [] ],
      VNodeJs.element "h3" []
        [ VNodeJs.element "Link" [("to", slug2)] [ VNodeJs.text titleText ] ],
      VNodeJs.element "p" [] [ VNodeJs.text excerpt ] ]), post)

/-! ## The tutorial reducer (2020-first-post.mdx, final listing)

The blog post builds a movie list managed by `moviesReducer` with the
action types ADD_MOVIE and MARK_WATCHED_MOVIE and the dispatch wrappers
`addMovie` and `markWatchedMovie`. -/

namespace MoviesApp

/-- A movie of the tutorial: `initialMovies` entries carry an id (a uuid,
kept opaque as a string), a title, a year and a watched flag. -/
structure Movie where
  id : String
  title : String
  year : Int
  watched : Bool
deriving Repr, DecidableEq

/-- The reducer state: `initialState` is `{ movies: initialMovies }`. -/
structure MoviesState where
  movies : List Movie
deriving Repr, DecidableEq

/-- The action type constant ADD_MOVIE. -/
def ADD_MOVIE : String := "ADD_MOVIE"

/-- The action type constant MARK_WATCHED_MOVIE. -/
def MARK_WATCHED_MOVIE : String := "MARK_WATCHED_MOVIE"

/-- A dispatched action: a type string and a payload.  The ADD_MOVIE
branch prepends the whole payload as a movie; the MARK_WATCHED_MOVIE
branch reads only `payload.id`, so the `\x7b id \x7d` payload of
`markWatchedMovie` is modelled as a movie whose other fields stand for the
absent properties. -/
structure Action where
  type : String
  payload : Movie
deriving Repr, DecidableEq

/-- The reducer of the final listing (mdx lines 320-347): a switch on
`action.type`; ADD_MOVIE prepends the payload, MARK_WATCHED_MOVIE toggles
the watched flag of every movie whose id equals the payload id, and any
other type throws `Action is not supported: ...`. -/
def moviesReducer (state : MoviesState) (action : Action) : Except String MoviesState :=
  if action.type = ADD_MOVIE then
    Except.ok { state with movies := action.payload :: state.movies }
  else if action.type = MARK_WATCHED_MOVIE then
    let movies := state.movies.map (fun movie =>
      if movie.id = action.payload.id then { movie with watched := !movie.watched } else movie)
    Except.ok { state with movies := movies }
  else
    Except.error ("Action is not supported: " ++ action.type)

/-- The data of the NewMovie form: a title and a year (the year input is
numeric). -/
structure MovieForm where
  title : String
  year : Int
deriving Repr, DecidableEq

/-- The `addMovie` wrapper (mdx lines 371-375): sets `movie.id` to a fresh
`uuidv4()` value (passed here as `fresh`), sets `movie.watched = false`,
and dispatches the movie as an ADD_MOVIE payload. -/
def addMovie (fresh : String) (form : MovieForm) : Action :=
  { type := ADD_MOVIE,
    payload := { id := fresh, title := form.title, year := form.year, watched := false } }

/-- The `markWatchedMovie` wrapper (mdx lines 377-379): dispatches a
MARK_WATCHED_MOVIE action whose payload carries the given id (the other
payload fields model the absent properties of the `\x7b id \x7d` object
and are never read by the reducer on this action type). -/
def markWatchedMovie (id : String) : Action :=
  { type := MARK_WATCHED_MOVIE,
    payload := { id := id, title := "", year := 0, watched := false } }

/-- The `initialMovies` of the tutorial (mdx lines 43-57): The Godfather
and Inception, unwatched, with opaque uuids. -/
def initialMovies : List Movie :=
  [ { id := "uuid-0", title := "The Godfather", year := 1972, watched := false },
    { id := "uuid-1", title := "Inception", year := 2010, watched := false } ]

/-- The `initialState` of the tutorial: `{ movies: initialMovies }`. -/
def initialState : MoviesState :=
  { movies := initialMovies }

end MoviesApp

/-! ## The content file (content/blog/2020-first-post/2020-first-post.mdx)

A content file is a list of lines: a frontmatter block delimited by `---`
lines, holding `key: value` metadata, followed by the free-form body.
Only the header and the opening of the body are reproduced here; the rest
of the body is further narrative and code listings. -/

/-- The opening lines of 2020-first-post.mdx: the full frontmatter block
and the first body lines (`\x27` encodes the single quotes of the
frontmatter values). -/
def firstPostLines : List String :=
  [ "---",
    "title: \x27React State Management with Hooks and Context API\x27",
    "slug: \x27first-post\x27",
    "author: \x27Binh Tran\x27",
    "image: ./images/maarten-deckers.jpg",
    "---",
    "",
    "![maarten-deckers](./images/maarten-deckers.jpg)",
    "",
    "Managing state is an important part of an application. Developers usually come to libraries like Redux for a solution." ]

/-- Every content file of the repository (there is exactly one blog
post). -/
def contentFiles : List (List String) :=
  [ firstPostLines ]

/-- Split a list of characters at the first colon-space separator,
returning what comes before and after it. -/
def splitAtColonSpace : List Char → Option (List Char × List Char)
  | [] => none
  | ':' :: ' ' :: rest => some ([], rest)
  | c :: rest =>
      match splitAtColonSpace rest with
      | some (k, v) => some (c :: k, v)
      | none => none

/-- Parse one `key: value` metadata line. -/
def parseMetaLine (l : String) : Option (String × String) :=
  match splitAtColonSpace l.data with
  | some (k, v) => some (⟨k⟩, ⟨v⟩)
  | none => none

/-- Split a document into its frontmatter bindings and its body: the
lines between a leading `---` line and the next `---` line are parsed as
metadata, the rest is the body. -/
def parseFrontmatter (lines : List String) : Option (List (String × String) × List String) :=
  match lines with
  | "---" :: rest =>
      let header := rest.takeWhile (fun l => l != "---")
      match rest.dropWhile (fun l => l != "---") with
      | "---" :: body =>
          match header.mapM parseMetaLine with
          | some meta => some (meta, body)
          | none => none
      | _ => none
  | _ => none

/-- A document has a complete metadata header when it parses and the
header binds title, slug, author and image, with a nonempty body after
it. -/
def hasCompleteHeader (lines : List String) : Bool :=
  match parseFrontmatter lines with
  | some (meta, body) =>
      (meta.lookup "title").isSome && (meta.lookup "slug").isSome &&
      (meta.lookup "author").isSome && (meta.lookup "image").isSome && !body.isEmpty
  | none => false

/-! ## Concrete sample inputs used by the witnesses. -/

/-- A sample Post Summary. -/
def samplePost : Post :=
  { slug := "/first-post/",
    title := "React State Management with Hooks and Context API",
    excerpt := "Managing state is an important part of an application.",
    image := { sharp := { fluid := "fluid-maarten-deckers" } } }

/-- A second Post Summary built field by field with the same values as
`samplePost`. -/
def samplePostCopy : Post :=
  { slug := "/first-post/",
    title := "React State Management with Hooks and Context API",
    excerpt := "Managing state is an important part of an application.",
    image := { sharp := { fluid := "fluid-maarten-deckers" } } }

/-- The sample post as an untyped object, with the nested
image.sharp.fluid shape the component reads. -/
def samplePostJs : JsVal :=
  JsVal.obj
    [ ("slug", JsVal.str "/first-post/"),
      ("title", JsVal.str "React State Management with Hooks and Context API"),
      ("excerpt", JsVal.str "Managing state is an important part of an application."),
      ("image", JsVal.obj [("sharp", JsVal.obj [("fluid", JsVal.str "fluid-maarten-deckers")])]) ]

/-! ## Helper lemmas -/

/-- Unfold the reducer on a markWatchedMovie dispatch: the state maps the
toggle-if-id function over its movies. -/
theorem moviesReducer_mark_eq (s : MoviesApp.MoviesState) (id : String) :
    MoviesApp.moviesReducer s (MoviesApp.markWatchedMovie id) =
      Except.ok { movies := s.movies.map (fun movie =>
        if movie.id = id then { movie with watched := !movie.watched } else movie) } := by
  simp [MoviesApp.moviesReducer, MoviesApp.markWatchedMovie,
    MoviesApp.ADD_MOVIE, MoviesApp.MARK_WATCHED_MOVIE]

/-- Toggling the watched flag of the movies matching an id twice restores
the list. -/
theorem toggle_map_involutive (id : String) (l : List MoviesApp.Movie) :
    (l.map (fun movie =>
        if movie.id = id then { movie with watched := !movie.watched } else movie)).map
      (fun movie =>
        if movie.id = id then { movie with watched := !movie.watched } else movie) = l := by
  induction l with
  | nil => rfl
  | cons m ms ih =>
      simp only [List.map_cons, List.cons.injEq]
      refine ⟨?_, ih⟩
      cases m with
      | mk i t y w => by_cases h : i = id <;> simp [h]

/-! ## The claims -/

/-- C1: for every valid Post Summary, the preview renderer produces exactly
two navigational links whose target equals the slug of the summary: one
wrapping the thumbnail image and one wrapping the title. -/
theorem postPreview_two_links_to_slug (post : Post) :
    collectTag "Link" (PostPreview post) =
      [ VNode.element "Link" [("to", post.slug), ("css", thumbnailLinkCss)]
          [ VNode.element "Image" [("alt", post.title), ("fluid", post.image.sharp.fluid)] [] ],
        VNode.element "Link" [("to", post.slug)] [ VNode.text post.title ] ] := by
  rfl

/-- C2: the preview renderer is a pure deterministic function: its output
markup depends only on the field values of the input, so two invocations
on identical input produce identical output, and the embedding is a total
function with no effects beyond the returned view description. -/
theorem postPreview_deterministic (p q : Post) (h1 : p.slug = q.slug)
    (h2 : p.title = q.title) (h3 : p.excerpt = q.excerpt) (h4 : p.image = q.image) :
    PostPreview p = PostPreview q := by
  simp [PostPreview, h1, h2, h3, h4]

/-- Witness for C2 at two concrete field-for-field equal posts. -/
theorem postPreview_deterministic_witness :
    PostPreview samplePost = PostPreview samplePostCopy :=
  postPreview_deterministic samplePost samplePostCopy rfl rfl rfl rfl

/-- C3: on every untyped post object providing the contract fields `slug`,
`title`, `excerpt` and `image` (well formed), the renderer succeeds, and
its output depends on nothing beyond those four fields: any object with
the same four fields renders identically. -/
theorem postPreviewJs_contract_ok (post : JsVal) (h : providesContract post) :
    (∃ n, PostPreviewJs post = Except.ok n) ∧
    ∀ q : JsVal,
      getField q "slug" = getField post "slug" →
      getField q "title" = getField post "title" →
      getField q "excerpt" = getField post "excerpt" →
      getField q "image" = getField post "image" →
      PostPreviewJs q = PostPreviewJs post := by
  obtain ⟨⟨s, hs⟩, ⟨t, ht⟩, ⟨e, he⟩, img, sh, fl, himg, hsh, hfl⟩ := h
  constructor
  · unfold PostPreviewJs
    simp only [hs, ht, he, himg, hsh, hfl]
    exact ⟨_, rfl⟩
  · intro q h1 h2 h3 h4
    unfold PostPreviewJs
    rw [h1, h2, h3, h4]

/-- Witness for C3 at a concrete well formed post object. -/
theorem postPreviewJs_contract_ok_witness :
    (∃ n, PostPreviewJs samplePostJs = Except.ok n) ∧
    ∀ q : JsVal,
      getField q "slug" = getField samplePostJs "slug" →
      getField q "title" = getField samplePostJs "title" →
      getField q "excerpt" = getField samplePostJs "excerpt" →
      getField q "image" = getField samplePostJs "image" →
      PostPreviewJs q = PostPreviewJs samplePostJs :=
  postPreviewJs_contract_ok samplePostJs
    ⟨⟨_, rfl⟩, ⟨_, rfl⟩, ⟨_, rfl⟩, _, _, _, rfl, rfl, rfl⟩

/-- C4: the rendered output contains the title of the summary as the text
of the clickable title link (inside the h3), the excerpt as a paragraph,
and the thumbnail image derived from the image reference of the summary. -/
theorem postPreview_renders_content (post : Post) :
    collectTag "p" (PostPreview post) = [ VNode.element "p" [] [ VNode.text post.excerpt ] ] ∧
    collectTag "h3" (PostPreview post) =
      [ VNode.element "h3" []
          [ VNode.element "Link" [("to", post.slug)] [ VNode.text post.title ] ] ] ∧
    collectTag "Image" (PostPreview post) =
      [ VNode.element "Image" [("alt", post.title), ("fluid", post.image.sharp.fluid)] [] ] := by
  exact ⟨rfl, rfl, rfl⟩

/-- C5: the renderer never mutates the post passed to it: with the post
object threaded through every property read the component performs, the
object after rendering is the object before, so every field reads the
same. -/
theorem postPreviewJsTr_no_mutation (post : JsVal) :
    (PostPreviewJsTr post).2 = post ∧
    ∀ k, getField (PostPreviewJsTr post).2 k = getField post k := by
  have h : (PostPreviewJsTr post).2 = post := by
    unfold PostPreviewJsTr readField
    repeat' split
    all_goals simp_all
  exact ⟨h, fun k => by rw [h]⟩

/-- C6: every content file of the repository has a metadata header binding
a title, a slug, an author and a hero image path, followed by a nonempty
free-form body; on the one blog post the bindings are listed explicitly. -/
theorem contentFiles_frontmatter_complete :
    contentFiles.all hasCompleteHeader = true ∧
    ∃ meta body, parseFrontmatter firstPostLines = some (meta, body) ∧
      meta.lookup "title" = some "\x27React State Management with Hooks and Context API\x27" ∧
      meta.lookup "slug" = some "\x27first-post\x27" ∧
      meta.lookup "author" = some "\x27Binh Tran\x27" ∧
      meta.lookup "image" = some "./images/maarten-deckers.jpg" ∧
      body ≠ [] := by
  refine ⟨by decide,
    [ ("title", "\x27React State Management with Hooks and Context API\x27"),
      ("slug", "\x27first-post\x27"),
      ("author", "\x27Binh Tran\x27"),
      ("image", "./images/maarten-deckers.jpg") ],
    [ "",
      "![maarten-deckers](./images/maarten-deckers.jpg)",
      "",
      "Managing state is an important part of an application. Developers usually come to libraries like Redux for a solution." ],
    by decide, rfl, rfl, rfl, rfl, by decide⟩

/-- C7: the MARK_WATCHED_MOVIE action toggles the watched flag: applying
it twice with the same id restores the original state, and one
application keeps the length of the list and leaves every movie whose id
differs from the payload id unchanged at its position. -/
theorem markWatchedMovie_toggles (s : MoviesApp.MoviesState) (id : String) :
    ((MoviesApp.moviesReducer s (MoviesApp.markWatchedMovie id)).bind
        fun s1 => MoviesApp.moviesReducer s1 (MoviesApp.markWatchedMovie id)) = Except.ok s ∧
    ∀ s1, MoviesApp.moviesReducer s (MoviesApp.markWatchedMovie id) = Except.ok s1 →
      s1.movies.length = s.movies.length ∧
      ∀ i m, s.movies.get? i = some m → m.id ≠ id → s1.movies.get? i = some m := by
  constructor
  · rw [moviesReducer_mark_eq]
    show MoviesApp.moviesReducer _ (MoviesApp.markWatchedMovie id) = Except.ok s
    rw [moviesReducer_mark_eq]
    rw [Except.ok.injEq]
    cases s with
    | mk l => simpa using toggle_map_involutive id l
  · intro s1 hs1
    rw [moviesReducer_mark_eq, Except.ok.injEq] at hs1
    subst hs1
    constructor
    · simp
    · intro i m hm hne
      rw [List.get?_map, hm]
      simp [hne]

/-- C8: the ADD_MOVIE action prepends: the resulting movies list is the
payload followed by the previous list unchanged, so the length grows by
one; and a movie dispatched through the addMovie wrapper enters the list
with watched false and the freshly generated id. -/
theorem addMovie_prepends (s : MoviesApp.MoviesState) (payload : MoviesApp.Movie)
    (fresh : String) (form : MoviesApp.MovieForm) :
    MoviesApp.moviesReducer s { type := MoviesApp.ADD_MOVIE, payload := payload } =
      Except.ok { movies := payload :: s.movies } ∧
    (payload :: s.movies).length = s.movies.length + 1 ∧
    MoviesApp.moviesReducer s (MoviesApp.addMovie fresh form) =
      Except.ok { movies :=
        { id := fresh, title := form.title, year := form.year,
          watched := false } :: s.movies } ∧
    (MoviesApp.addMovie fresh form).payload.watched = false ∧
    (MoviesApp.addMovie fresh form).payload.id = fresh := by
  exact ⟨rfl, rfl, rfl, rfl, rfl⟩

/-- C9: the reducer throws `Action is not supported` for every action
whose type is neither ADD_MOVIE nor MARK_WATCHED_MOVIE, and returns a new
state without error for those two action types. -/
theorem moviesReducer_unknown_type_errors (s : MoviesApp.MoviesState) (a : MoviesApp.Action) :
    ((a.type = MoviesApp.ADD_MOVIE ∨ a.type = MoviesApp.MARK_WATCHED_MOVIE) →
      ∃ s1, MoviesApp.moviesReducer s a = Except.ok s1) ∧
    (a.type ≠ MoviesApp.ADD_MOVIE → a.type ≠ MoviesApp.MARK_WATCHED_MOVIE →
      MoviesApp.moviesReducer s a = Except.error ("Action is not supported: " ++ a.type)) := by
  constructor
  · rintro (h | h)
    · exact ⟨{ movies := a.payload :: s.movies },
        by simp [MoviesApp.moviesReducer, h]⟩
    · by_cases h2 : a.type = MoviesApp.ADD_MOVIE
      · exact ⟨{ movies := a.payload :: s.movies },
          by simp [MoviesApp.moviesReducer, h2]⟩
      · exact ⟨{ movies := s.movies.map (fun movie =>
            if movie.id = a.payload.id then { movie with watched := !movie.watched } else movie) },
          by simp [MoviesApp.moviesReducer, h, h2,
            MoviesApp.ADD_MOVIE, MoviesApp.MARK_WATCHED_MOVIE]⟩
  · intro h1 h2
    simp [MoviesApp.moviesReducer, h1, h2]
